import Mathlib

/-!
Verification development for the identity-resolution path of the iotedge
repository (edgelet-kube `authenticate` pipeline) and for the peripheral
edge-dashboard health rollup and module listing.

The dashboard code (`edge-modules/edge-dashboard/src/health.rs`,
`edge-modules/edge-dashboard/src/modules.rs`) is embedded directly from the
source.  The `authenticate` pipeline of `KubeModuleRuntime` is exercised by
`edgelet/edgelet-kube/tests/runtime.rs` but its implementation file is not
part of the sources at hand, so it is modelled from the specification
(sections 4.1 - 4.3), adjusted only where the repository's own tests pin
down a different behaviour.
-/

namespace EdgeDashboard

/-- From `health.rs`: `enum Health { Healthy, Degraded, Poor }`. -/
inductive Health where
  | Healthy
  | Degraded
  | Poor
deriving DecidableEq, Repr

/-- From `health.rs`: `struct Status` with the four boolean fields. -/
structure Status where
  iotedged : Bool
  edge_agent : Bool
  edge_hub : Bool
  other_modules : Bool
deriving DecidableEq, Repr

/-- From `health.rs`: `Status::new` starts with every field `false`. -/
def Status.new : Status :=
  { iotedged := false, edge_agent := false, edge_hub := false, other_modules := false }

/-- From `health.rs`: `Status::set_iotedged` sets `iotedged` to `true`. -/
def Status.set_iotedged (s : Status) : Status := { s with iotedged := true }

/-- From `health.rs`: `Status::set_edge_agent`. -/
def Status.set_edge_agent (s : Status) (val : Bool) : Status := { s with edge_agent := val }

/-- From `health.rs`: `Status::set_edge_hub`. -/
def Status.set_edge_hub (s : Status) (val : Bool) : Status := { s with edge_hub := val }

/-- From `health.rs`: `Status::set_other_modules`. -/
def Status.set_other_modules (s : Status) (val : Bool) : Status := { s with other_modules := val }

/-- From `health.rs`: `Status::return_health`. -/
def Status.return_health (s : Status) : Health :=
  if s.iotedged && s.edge_agent && s.edge_hub then
    if s.other_modules then Health.Healthy else Health.Degraded
  else Health.Poor

/-- From `health.rs`: `struct HealthStatus { health, status }`. -/
structure HealthStatus where
  health : Health
  status : Status
deriving DecidableEq, Repr

/-- From `health.rs`: `HealthStatus::new`. -/
def HealthStatus.new (health : Health) (status : Status) : HealthStatus :=
  { health := health, status := status }

/-- From `modules.rs`: `struct TConfig { image: String }`. -/
structure TConfig where
  image : String
deriving DecidableEq, Repr

/-- From `modules.rs`: `TConfig::new` formats `"mcr.microsoft.com/{}:1.0"` with the id. -/
def TConfig.new (id : String) : TConfig :=
  { image := "mcr.microsoft.com/" ++ id ++ ":1.0" }

/-- From `modules.rs`: `struct Module` with its six fields (`r#type` rendered `type`). -/
structure Module where
  id : String
  type : String
  status : String
  config : TConfig
  cpu : Int
  memoryInMb : Int
deriving DecidableEq, Repr

/-- From `modules.rs`, `Module::new`: the vector the `cpu` field is drawn from. -/
def cpuChoices : List Int := [0, 20, 14, 33, 27, 24, 4, 8]

/-- From `modules.rs`, `Module::new`: the vector the `memoryInMb` field is drawn from. -/
def memoryChoices : List Int := [150, 200, 140, 175, 190, 80, 125, 75]

/-- From `modules.rs`: `Module::new(id, status)`.  The two calls to
`SliceRandom::choose(&mut rand::thread_rng())` are modelled by passing the
two random draws explicitly as indices into the eight-element vectors. -/
def Module.new (id status : String) (cpuDraw memDraw : Fin 8) : Module :=
  { id := id
    type := "docker"
    status := status
    config := TConfig.new id
    cpu := cpuChoices.get (Fin.cast rfl cpuDraw)
    memoryInMb := memoryChoices.get (Fin.cast rfl memDraw) }

/-- From `modules.rs`: `health_response`, with the final JSON serialization
dropped: the embedding returns the `HealthStatus` value that the source
serializes into the response body. -/
def health_response (mods : List Module) : HealthStatus :=
  let edge_agent := mods.any (fun m => m.id == "edgeAgent" && m.status == "running")
  let edge_hub := mods.any (fun m => m.id == "edgeHub" && m.status == "running")
  let other := mods.any (fun m => m.status != "running")
  let device_status :=
    ((((Status.new).set_iotedged).set_edge_agent edge_agent).set_edge_hub
        edge_hub).set_other_modules (edge_agent && edge_hub && other)
  let health := device_status.return_health
  HealthStatus.new health device_status

/-- Helper for stating closed facts about concrete module lists. -/
def allRunning (mods : List Module) : Bool :=
  mods.all (fun m => m.status == "running")

end EdgeDashboard

namespace EdgeletKube

/-- Outcome of a cluster token review, as interpreted by the Token
Validator: the `status.authenticated` boolean and the optional
`status.user.username` string.  Structurally incomplete but transported
responses are modelled by the tolerant default `authenticated = false` /
`user = none`, as the spec prescribes; `Except.error` in the transport
below covers only transport-level faults. -/
structure TokenReviewStatus where
  authenticated : Bool
  user : Option String
deriving DecidableEq, Repr

/-- A fetched cluster service identity: `metadata.name`,
`metadata.namespace` and the optional `metadata.annotations` map,
modelled as an association list. -/
structure ServiceAccount where
  name : String
  ns : String
  annotations : List (String × String)
deriving DecidableEq, Repr

/-- The cluster transport capability: the two calls the pipeline makes.
`Except.error ()` stands for any transport-level fault (connection error,
unexpected status such as not-found, unparsable body). -/
structure Cluster where
  tokenReview : String → Except Unit TokenReviewStatus
  getServiceAccount : String → String → Except Unit ServiceAccount

/-- From `edgelet_core::AuthId` as used by the tests: `None` is the
anonymous identity, `Value` carries a module name. -/
inductive AuthId where
  | None
  | Value (v : String)
deriving DecidableEq, Repr

/-- The two error kinds the tests observe from `authenticate`:
`ModuleAuthenticationError` is the spec's `MalformedCredential`,
`KubeClient` is the spec's `ClusterUnavailable`. -/
inductive ErrorKind where
  | ModuleAuthenticationError
  | KubeClient
deriving DecidableEq, Repr

/-- A record of one network call made by the pipeline, used to state
which calls an execution performs and with which arguments. -/
inductive Call where
  | tokenReview (token : String)
  | getServiceAccount (ns name : String)
deriving DecidableEq, Repr

/-- A header byte is acceptable to the string view of the header
(`HeaderValue::to_str`) only when it is ASCII. -/
def isAsciiChar (c : Char) : Bool := c.toNat < 128

/-- Modelled from the spec: credential parsing of the Request
Authenticator (section 4.1 step 2, section 6: accepted literal form is
exactly `Bearer <token>` with the case-sensitive scheme word and a single
space).  Returns the token characters when the header starts with the
scheme, and nothing otherwise. -/
def bearerToken (h : List Char) : Option (List Char) :=
  if ("Bearer ".toList).isPrefixOf h then Option.some (h.drop 7) else Option.none

/-- Structural split of a character list at `:` boundaries. -/
def splitCols : List Char → List (List Char)
  | [] => [[]]
  | c :: rest =>
    let r := splitCols rest
    if c = ':' then [] :: r
    else
      match r with
      | [] => [[c]]
      | g :: gs => (c :: g) :: gs

/-- Modelled from the spec: the Identity Resolver's match of the asserted
user against the pattern `system:serviceaccount:<ns>:<name>` (section 4.3
step 1).  Succeeds exactly on four colon-separated segments whose first
two are the literals `system` and `serviceaccount`. -/
def parseServiceAccountUser (u : String) : Option (String × String) :=
  match splitCols u.toList with
  | [s1, s2, nsChars, nameChars] =>
    if s1 = "system".toList && s2 = "serviceaccount".toList then
      Option.some (nsChars.asString, nameChars.asString)
    else Option.none
  | _ => Option.none

/-- The fixed annotation key `net.azure-devices.edge.original-moduleid`. -/
def originalModuleIdKey : String := "net.azure-devices.edge.original-moduleid"

/-- Modelled from the spec: the `KubeModuleRuntime::authenticate` pipeline
(sections 4.1 - 4.3), whose implementation file is not among the sources;
only its tests (`edgelet/edgelet-kube/tests/runtime.rs`) are.  Faithful to
the spec's words with one adjustment the tests force: an ASCII header that
does not match the `Bearer ` scheme yields `AuthId.None` (the test
`authenticate_returns_none_when_invalid_auth_header_provided` asserts
`Ok(AuthId::None)` for the header `BeErer token`), while the spec's
`MalformedCredential` is reserved for a header whose bytes are not ASCII
(the test with the Greek-letter header asserts
`ErrorKind::ModuleAuthenticationError`).  The result pairs the outcome
with the ordered list of network calls performed. -/
def authenticate (cfgNamespace : String) (cluster : Cluster) (header : Option (List Char)) :
    Except ErrorKind AuthId × List Call :=
  match header with
  | Option.none => (Except.ok AuthId.None, [])
  | Option.some h =>
    if h.all isAsciiChar then
      match bearerToken h with
      | Option.none => (Except.ok AuthId.None, [])
      | Option.some tokenChars =>
        let token := tokenChars.asString
        match cluster.tokenReview token with
        | Except.error _ => (Except.error ErrorKind.KubeClient, [Call.tokenReview token])
        | Except.ok st =>
          if st.authenticated then
            match st.user with
            | Option.none => (Except.ok AuthId.None, [Call.tokenReview token])
            | Option.some u =>
              match parseServiceAccountUser u with
              | Option.none => (Except.ok AuthId.None, [Call.tokenReview token])
              | Option.some (_, name) =>
                match cluster.getServiceAccount cfgNamespace name with
                | Except.error _ =>
                  (Except.error ErrorKind.KubeClient,
                    [Call.tokenReview token, Call.getServiceAccount cfgNamespace name])
                | Except.ok sa =>
                  match sa.annotations.lookup originalModuleIdKey with
                  | Option.some orig =>
                    (Except.ok (AuthId.Value orig),
                      [Call.tokenReview token, Call.getServiceAccount cfgNamespace name])
                  | Option.none =>
                    (Except.ok (AuthId.Value sa.name),
                      [Call.tokenReview token, Call.getServiceAccount cfgNamespace name])
          else (Except.ok AuthId.None, [Call.tokenReview token])
    else (Except.error ErrorKind.ModuleAuthenticationError, [])

/-- Written from the spec's words (section 3, `BearerCredential`), for
comparison with the code's behaviour: a header value is a valid bearer
credential only if it is ASCII and of the literal form `Bearer <token>`;
anything else is what the spec calls malformed. -/
def specValidBearerHeader (h : List Char) : Bool :=
  h.all isAsciiChar && ("Bearer ".toList).isPrefixOf h

/-- The review outcome served by `authenticated_token_review_handler` in
the tests: `authenticated = true` with username
`system:serviceaccount:my-namespace:edgeagent`. -/
def edgeagentReviewStatus : TokenReviewStatus :=
  { authenticated := true,
    user := Option.some "system:serviceaccount:my-namespace:edgeagent" }

/-- The token-review double of `authenticated_token_review_handler` in the
tests. -/
def authenticatedReview : String → Except Unit TokenReviewStatus :=
  fun _ => Except.ok edgeagentReviewStatus

/-- The token-review double of `unauthenticated_token_review_handler` in
the tests: every review reports `authenticated = false` with no user. -/
def unauthenticatedReview : String → Except Unit TokenReviewStatus :=
  fun _ => Except.ok { authenticated := false, user := Option.none }

/-- Service-account fetch double for a route table with no service-account
route: every lookup hits the not-found handler. -/
def saNotFound : String → String → Except Unit ServiceAccount :=
  fun _ _ => Except.error ()

/-- The service-account body served by
`get_service_account_without_annotations_handler` in the tests. -/
def saPlain : ServiceAccount :=
  { name := "edgeagent", ns := "my-namespace", annotations := [] }

/-- The service-account body served by
`get_service_account_with_annotations_handler` in the tests: it carries
the `original-moduleid` annotation with value `$edgeAgent`. -/
def saAnnot : ServiceAccount :=
  { name := "edgeagent", ns := "my-namespace",
    annotations := [(originalModuleIdKey, "$edgeAgent")] }

/-- Service-account fetch double of
`get_service_account_without_annotations_handler`, routed like the test at
`/api/v1/namespaces/default/serviceaccounts/edgeagent` (the configured
namespace is `default`, from `make_settings`). -/
def saWithoutAnnotations : String → String → Except Unit ServiceAccount :=
  fun ns name =>
    if ns = "default" && name = "edgeagent" then Except.ok saPlain
    else Except.error ()

/-- Service-account fetch double of
`get_service_account_with_annotations_handler`. -/
def saWithAnnotations : String → String → Except Unit ServiceAccount :=
  fun ns name =>
    if ns = "default" && name = "edgeagent" then Except.ok saAnnot
    else Except.error ()

/-- Test cluster: authenticated review, no service-account route. -/
def clusterAuthNotFound : Cluster :=
  { tokenReview := authenticatedReview, getServiceAccount := saNotFound }

/-- Test cluster: unauthenticated review, no service-account route. -/
def clusterUnauth : Cluster :=
  { tokenReview := unauthenticatedReview, getServiceAccount := saNotFound }

/-- Test cluster: authenticated review, service account without the
annotation. -/
def clusterAuthNoAnnot : Cluster :=
  { tokenReview := authenticatedReview, getServiceAccount := saWithoutAnnotations }

/-- Test cluster: authenticated review, service account carrying the
annotation. -/
def clusterAuthWithAnnot : Cluster :=
  { tokenReview := authenticatedReview, getServiceAccount := saWithAnnotations }

/-- A cluster that is down: both calls fail at the transport level. -/
def downCluster : Cluster :=
  { tokenReview := fun _ => Except.error (),
    getServiceAccount := fun _ _ => Except.error () }

instance instDecEqExcept {e a : Type} [DecidableEq e] [DecidableEq a] :
    DecidableEq (Except e a) := fun x y =>
  match x, y with
  | Except.ok u, Except.ok v =>
    match decEq u v with
    | Decidable.isTrue h => Decidable.isTrue (by rw [h])
    | Decidable.isFalse h => Decidable.isFalse (by intro hc; cases hc; exact h rfl)
  | Except.ok _, Except.error _ => Decidable.isFalse (by intro hc; cases hc)
  | Except.error _, Except.ok _ => Decidable.isFalse (by intro hc; cases hc)
  | Except.error u, Except.error v =>
    match decEq u v with
    | Decidable.isTrue h => Decidable.isTrue (by rw [h])
    | Decidable.isFalse h => Decidable.isFalse (by intro hc; cases hc; exact h rfl)

end EdgeletKube

namespace EdgeDashboard

example : (health_response []).health = Health.Poor := by decide

end EdgeDashboard

namespace EdgeletKube

example :
    (authenticate "default" clusterUnauth (Option.some ("Bearer token-unknown".toList))).1 =
      Except.ok AuthId.None := by decide

example :
    (authenticate "default" clusterAuthWithAnnot (Option.some ("Bearer token".toList))).1 =
      Except.ok (AuthId.Value "$edgeAgent") := by decide

example :
    (authenticate "default" clusterAuthNoAnnot (Option.some ("Bearer token".toList))).1 =
      Except.ok (AuthId.Value "edgeagent") := by decide

example :
    (authenticate "default" clusterAuthNotFound (Option.some ("Bearer token".toList))).1 =
      Except.error ErrorKind.KubeClient := by decide

example :
    authenticate "default" clusterUnauth (Option.some ("BeErer token".toList)) =
      (Except.ok AuthId.None, []) := by decide

example :
    (authenticate "default" clusterUnauth (Option.some ("ΪΩΤ".toList))).1 =
      Except.error ErrorKind.ModuleAuthenticationError := by decide

end EdgeletKube

namespace EdgeDashboard

/-- The health field of `health_response`, written out: `iotedged` is
always set, so the rollup depends only on the three `any` scans. -/
theorem health_response_health_eq (mods : List Module) :
    (health_response mods).health =
      (if mods.any (fun m => m.id == "edgeAgent" && m.status == "running")
          && mods.any (fun m => m.id == "edgeHub" && m.status == "running") then
        if mods.any (fun m => m.id == "edgeAgent" && m.status == "running")
            && mods.any (fun m => m.id == "edgeHub" && m.status == "running")
            && mods.any (fun m => m.status != "running") then
          Health.Healthy
        else Health.Degraded
      else Health.Poor) := rfl

end EdgeDashboard

namespace EdgeDashboard

/-- C9 (amended): the dashboard health rollup reports `Healthy` only when
a module named `edgeAgent` is running, a module named `edgeHub` is
running, and some module is not running; when every module is running the
rollup is never `Healthy`, and it is `Degraded` provided `edgeAgent` and
`edgeHub` are running; whenever `edgeAgent` or `edgeHub` is not running
the rollup is `Poor`. -/
theorem health_rollup_characterization (mods : List Module) :
    ((health_response mods).health = Health.Healthy →
      (∃ m ∈ mods, m.id = "edgeAgent" ∧ m.status = "running") ∧
      (∃ m ∈ mods, m.id = "edgeHub" ∧ m.status = "running") ∧
      (∃ m ∈ mods, m.status ≠ "running")) ∧
    ((∀ m ∈ mods, m.status = "running") →
      (health_response mods).health ≠ Health.Healthy) ∧
    ((∀ m ∈ mods, m.status = "running") →
      (∃ m ∈ mods, m.id = "edgeAgent" ∧ m.status = "running") →
      (∃ m ∈ mods, m.id = "edgeHub" ∧ m.status = "running") →
      (health_response mods).health = Health.Degraded) ∧
    (((¬ ∃ m ∈ mods, m.id = "edgeAgent" ∧ m.status = "running") ∨
      (¬ ∃ m ∈ mods, m.id = "edgeHub" ∧ m.status = "running")) →
      (health_response mods).health = Health.Poor) := by
  rw [health_response_health_eq]
  cases hea : mods.any (fun m => m.id == "edgeAgent" && m.status == "running") <;>
    cases heh : mods.any (fun m => m.id == "edgeHub" && m.status == "running") <;>
      cases hot : mods.any (fun m => m.status != "running") <;>
        simp only [List.any_eq_true, List.any_eq_false, Bool.and_eq_true, beq_iff_eq,
          bne_iff_ne, ne_eq, Bool.not_eq_true] at hea heh hot <;>
        simp_all

/-- C9 counterexample: a list whose single module `foo` is running.  Every
module of the list is running yet the rollup is `Poor`, not `Degraded` as
the claim states (and `edgeAgent` is "not running" here, so the claim's
Degraded and Poor parts contradict each other at this input). -/
theorem health_rollup_all_running_not_degraded :
    allRunning [Module.new "foo" "running" 0 0] = true ∧
    (health_response [Module.new "foo" "running" 0 0]).health = Health.Poor ∧
    (health_response [Module.new "foo" "running" 0 0]).health ≠ Health.Degraded := by
  refine ⟨rfl, rfl, ?_⟩
  intro h
  cases h

/-- C9 witness: instantiating the characterization on the concrete list
from the spec's scenario (running `edgeAgent`, running `edgeHub`, plus a
stopped `tempSensor`) yields `Healthy` via the converse direction, and on
an all-running list with both system modules yields `Degraded`. -/
theorem health_rollup_characterization_witness :
    (∀ m ∈ [Module.new "edgeAgent" "running" 0 0, Module.new "edgeHub" "running" 0 0],
      m.status = "running") ∧
    (health_response
      [Module.new "edgeAgent" "running" 0 0, Module.new "edgeHub" "running" 0 0]).health =
        Health.Degraded :=
  ⟨by decide,
    (health_rollup_characterization
      [Module.new "edgeAgent" "running" 0 0, Module.new "edgeHub" "running" 0 0]).2.2.1
      (by decide) (by decide) (by decide)⟩

/-- C10: `Module::new(id, status)` draws `cpu` only from the fixed vector
`[0, 20, 14, 33, 27, 24, 4, 8]` and `memoryInMb` only from
`[150, 200, 140, 175, 190, 80, 125, 75]`, and for any two random draws
every other field is identical: `id` is the given id, `type` is
`"docker"`, `status` is the given status, and the config image is
`mcr.microsoft.com/<id>:1.0`. -/
theorem module_new_randomness_isolated (id status : String) (c1 m1 c2 m2 : Fin 8) :
    (Module.new id status c1 m1).cpu ∈ cpuChoices ∧
    (Module.new id status c1 m1).memoryInMb ∈ memoryChoices ∧
    (Module.new id status c1 m1).id = id ∧
    (Module.new id status c1 m1).type = "docker" ∧
    (Module.new id status c1 m1).status = status ∧
    (Module.new id status c1 m1).config.image = "mcr.microsoft.com/" ++ id ++ ":1.0" ∧
    (Module.new id status c1 m1).id = (Module.new id status c2 m2).id ∧
    (Module.new id status c1 m1).type = (Module.new id status c2 m2).type ∧
    (Module.new id status c1 m1).status = (Module.new id status c2 m2).status ∧
    (Module.new id status c1 m1).config = (Module.new id status c2 m2).config :=
  ⟨List.get_mem cpuChoices _ _, List.get_mem memoryChoices _ _,
    rfl, rfl, rfl, rfl, rfl, rfl, rfl, rfl⟩

end EdgeDashboard

namespace EdgeletKube

/-- Token-review double asserting a non-service-account cluster identity
(`system:node:node1`), authenticated. -/
def nodeReview : String → Except Unit TokenReviewStatus :=
  fun _ => Except.ok { authenticated := true, user := Option.some "system:node:node1" }

/-- Test cluster: authenticated review asserting a node identity. -/
def clusterAuthNode : Cluster :=
  { tokenReview := nodeReview, getServiceAccount := saNotFound }

/-- C6: a request with no credential header authenticates successfully as
`AuthId.None` (Anonymous), with no network call; the absence of a
credential is never an error. -/
theorem authenticate_no_header_anonymous (cfg : String) (cluster : Cluster) :
    authenticate cfg cluster Option.none = (Except.ok AuthId.None, []) := rfl

/-- C5: when the token review responds successfully with
`authenticated = false`, or with no asserted user, `authenticate` returns
`AuthId.None` and does not fail. -/
theorem authenticate_unauthenticated_review_anonymous
    (cfg : String) (cluster : Cluster) (hdr tc : List Char) (st : TokenReviewStatus)
    (hascii : hdr.all isAsciiChar = true)
    (hbearer : bearerToken hdr = Option.some tc)
    (hreview : cluster.tokenReview (List.asString tc) = Except.ok st)
    (hno : st.authenticated = false ∨ st.user = Option.none) :
    (authenticate cfg cluster (Option.some hdr)).1 = Except.ok AuthId.None := by
  rcases hno with hno | hno
  · simp [authenticate, hascii, hbearer, hreview, hno]
  · cases hauth : st.authenticated <;>
      simp [authenticate, hascii, hbearer, hreview, hno, hauth]

/-- C5 witness: the token `token-unknown`, reviewed by the
unauthenticated-review cluster of the tests, yields Anonymous. -/
theorem authenticate_unauthenticated_review_anonymous_witness :
    ("Bearer token-unknown".toList).all isAsciiChar = true ∧
    bearerToken ("Bearer token-unknown".toList) = Option.some ("token-unknown".toList) ∧
    clusterUnauth.tokenReview (List.asString ("token-unknown".toList)) =
      Except.ok { authenticated := false, user := Option.none } ∧
    (authenticate "default" clusterUnauth (Option.some ("Bearer token-unknown".toList))).1 =
      Except.ok AuthId.None :=
  ⟨by decide, by decide, rfl,
    authenticate_unauthenticated_review_anonymous "default" clusterUnauth
      ("Bearer token-unknown".toList) ("token-unknown".toList)
      { authenticated := false, user := Option.none }
      (by decide) (by decide) rfl (Or.inl rfl)⟩

/-- C7: when the token review reports `authenticated = true` but the
asserted user does not match `system:serviceaccount:<ns>:<name>`,
`authenticate` returns `AuthId.None` and the trace shows no
service-identity fetch was attempted. -/
theorem authenticate_unrecognized_user_anonymous
    (cfg : String) (cluster : Cluster) (hdr tc : List Char) (st : TokenReviewStatus) (u : String)
    (hascii : hdr.all isAsciiChar = true)
    (hbearer : bearerToken hdr = Option.some tc)
    (hreview : cluster.tokenReview (List.asString tc) = Except.ok st)
    (hauth : st.authenticated = true)
    (huser : st.user = Option.some u)
    (hparse : parseServiceAccountUser u = Option.none) :
    authenticate cfg cluster (Option.some hdr) =
      (Except.ok AuthId.None, [Call.tokenReview (List.asString tc)]) := by
  simp [authenticate, hascii, hbearer, hreview, hauth, huser, hparse]

/-- C7 witness: the asserted user `system:node:node1` does not match the
service-account pattern; the outcome is Anonymous and the only call in
the trace is the token review. -/
theorem authenticate_unrecognized_user_anonymous_witness :
    parseServiceAccountUser "system:node:node1" = Option.none ∧
    authenticate "default" clusterAuthNode (Option.some ("Bearer token".toList)) =
      (Except.ok AuthId.None, [Call.tokenReview "token"]) :=
  ⟨by decide,
    authenticate_unrecognized_user_anonymous "default" clusterAuthNode
      ("Bearer token".toList) ("token".toList)
      { authenticated := true, user := Option.some "system:node:node1" }
      "system:node:node1"
      (by decide) (by decide) rfl rfl rfl (by decide)⟩

/-- C1: when the token review reports `authenticated = true` with an
asserted user matching the service-account pattern, and the subsequent
service-identity fetch fails, `authenticate` fails with the `KubeClient`
error kind (the spec's `ClusterUnavailable`) and in particular does not
return Anonymous. -/
theorem authenticate_fetch_failure_cluster_unavailable
    (cfg : String) (cluster : Cluster) (hdr tc : List Char) (st : TokenReviewStatus)
    (u ns2 name : String)
    (hascii : hdr.all isAsciiChar = true)
    (hbearer : bearerToken hdr = Option.some tc)
    (hreview : cluster.tokenReview (List.asString tc) = Except.ok st)
    (hauth : st.authenticated = true)
    (huser : st.user = Option.some u)
    (hparse : parseServiceAccountUser u = Option.some (ns2, name))
    (hfetch : cluster.getServiceAccount cfg name = Except.error ()) :
    (authenticate cfg cluster (Option.some hdr)).1 = Except.error ErrorKind.KubeClient ∧
    (authenticate cfg cluster (Option.some hdr)).1 ≠ Except.ok AuthId.None := by
  have h : (authenticate cfg cluster (Option.some hdr)).1 =
      Except.error ErrorKind.KubeClient := by
    simp [authenticate, hascii, hbearer, hreview, hauth, huser, hparse, hfetch]
  refine ⟨h, ?_⟩
  rw [h]
  intro hc
  cases hc

/-- C1 witness: the authenticated review asserts
`system:serviceaccount:my-namespace:edgeagent`; with no service-account
route the fetch fails and the outcome is the `KubeClient` error. -/
theorem authenticate_fetch_failure_cluster_unavailable_witness :
    clusterAuthNotFound.tokenReview (List.asString ("token".toList)) =
      Except.ok edgeagentReviewStatus ∧
    parseServiceAccountUser "system:serviceaccount:my-namespace:edgeagent" =
      Option.some ("my-namespace", "edgeagent") ∧
    clusterAuthNotFound.getServiceAccount "default" "edgeagent" = Except.error () ∧
    (authenticate "default" clusterAuthNotFound (Option.some ("Bearer token".toList))).1 =
      Except.error ErrorKind.KubeClient :=
  ⟨rfl, by decide, rfl,
    (authenticate_fetch_failure_cluster_unavailable "default" clusterAuthNotFound
      ("Bearer token".toList) ("token".toList) edgeagentReviewStatus
      "system:serviceaccount:my-namespace:edgeagent" "my-namespace" "edgeagent"
      (by decide) (by decide) rfl rfl rfl (by decide) rfl).1⟩

/-- C3: on a successful service-identity fetch, the annotation
`net.azure-devices.edge.original-moduleid` takes precedence: if present,
`authenticate` returns `AuthId.Value` of the annotation value; if absent,
it returns `AuthId.Value` of the fetched name. -/
theorem authenticate_named_from_identity
    (cfg : String) (cluster : Cluster) (hdr tc : List Char) (st : TokenReviewStatus)
    (u ns2 name : String) (sa : ServiceAccount)
    (hascii : hdr.all isAsciiChar = true)
    (hbearer : bearerToken hdr = Option.some tc)
    (hreview : cluster.tokenReview (List.asString tc) = Except.ok st)
    (hauth : st.authenticated = true)
    (huser : st.user = Option.some u)
    (hparse : parseServiceAccountUser u = Option.some (ns2, name))
    (hfetch : cluster.getServiceAccount cfg name = Except.ok sa) :
    (∀ v, sa.annotations.lookup originalModuleIdKey = Option.some v →
      (authenticate cfg cluster (Option.some hdr)).1 = Except.ok (AuthId.Value v)) ∧
    (sa.annotations.lookup originalModuleIdKey = Option.none →
      (authenticate cfg cluster (Option.some hdr)).1 = Except.ok (AuthId.Value sa.name)) := by
  constructor
  · intro v hv
    simp [authenticate, hascii, hbearer, hreview, hauth, huser, hparse, hfetch, hv]
  · intro hv
    simp [authenticate, hascii, hbearer, hreview, hauth, huser, hparse, hfetch, hv]

/-- C3 witness: with the annotated service account the result is
`Value "$edgeAgent"`; with the plain one it is `Value "edgeagent"`. -/
theorem authenticate_named_from_identity_witness :
    saAnnot.annotations.lookup originalModuleIdKey = Option.some "$edgeAgent" ∧
    (authenticate "default" clusterAuthWithAnnot (Option.some ("Bearer token".toList))).1 =
      Except.ok (AuthId.Value "$edgeAgent") ∧
    saPlain.annotations.lookup originalModuleIdKey = Option.none ∧
    (authenticate "default" clusterAuthNoAnnot (Option.some ("Bearer token".toList))).1 =
      Except.ok (AuthId.Value "edgeagent") :=
  ⟨by decide,
    (authenticate_named_from_identity "default" clusterAuthWithAnnot
      ("Bearer token".toList) ("token".toList) edgeagentReviewStatus
      "system:serviceaccount:my-namespace:edgeagent" "my-namespace" "edgeagent" saAnnot
      (by decide) (by decide) rfl rfl rfl (by decide) (by decide)).1 "$edgeAgent" (by decide),
    by decide,
    (authenticate_named_from_identity "default" clusterAuthNoAnnot
      ("Bearer token".toList) ("token".toList) edgeagentReviewStatus
      "system:serviceaccount:my-namespace:edgeagent" "my-namespace" "edgeagent" saPlain
      (by decide) (by decide) rfl rfl rfl (by decide) (by decide)).2 (by decide)⟩

end EdgeletKube

namespace EdgeletKube

/-- C2 counterexample: the header `BeErer token` (wrong scheme word) is
not a valid bearer header by the spec's own definition, yet `authenticate`
does not fail with the malformed-credential error: it succeeds with
`AuthId.None`, exactly as the test
`authenticate_returns_none_when_invalid_auth_header_provided` asserts. -/
theorem wrong_scheme_header_not_malformed_error :
    specValidBearerHeader ("BeErer token".toList) = false ∧
    authenticate "default" clusterUnauth (Option.some ("BeErer token".toList)) =
      (Except.ok AuthId.None, []) ∧
    (authenticate "default" clusterUnauth (Option.some ("BeErer token".toList))).1 ≠
      Except.error ErrorKind.ModuleAuthenticationError := ⟨by decide, by decide, by decide⟩

/-- C2 (amended): a credential header whose bytes are not all ASCII makes
`authenticate` fail with `ModuleAuthenticationError` (the spec's
`MalformedCredential`) with no network call made; an ASCII header that
does not match the `Bearer <token>` scheme yields `AuthId.None`, also
with no network call. -/
theorem authenticate_header_parse_outcomes
    (cfg : String) (cluster : Cluster) (h : List Char) :
    (h.all isAsciiChar = false →
      authenticate cfg cluster (Option.some h) =
        (Except.error ErrorKind.ModuleAuthenticationError, [])) ∧
    (h.all isAsciiChar = true → bearerToken h = Option.none →
      authenticate cfg cluster (Option.some h) = (Except.ok AuthId.None, [])) := by
  constructor
  · intro hna
    simp [authenticate, hna]
  · intro ha hb
    simp [authenticate, ha, hb]

/-- C2 witness: the Greek-letter header of the test is non-ASCII and
fails with the malformed-credential error and an empty call trace; the
`BeErer token` header is ASCII with a wrong scheme and yields Anonymous
with an empty call trace. -/
theorem authenticate_header_parse_outcomes_witness :
    (("ΪΩΤ".toList).all isAsciiChar = false ∧
      authenticate "default" clusterUnauth (Option.some ("ΪΩΤ".toList)) =
        (Except.error ErrorKind.ModuleAuthenticationError, [])) ∧
    (("BeErer token".toList).all isAsciiChar = true ∧
      bearerToken ("BeErer token".toList) = Option.none ∧
      authenticate "default" clusterUnauth (Option.some ("BeErer token".toList)) =
        (Except.ok AuthId.None, [])) :=
  ⟨⟨by decide,
      (authenticate_header_parse_outcomes "default" clusterUnauth ("ΪΩΤ".toList)).1
        (by decide)⟩,
    ⟨by decide, by decide,
      (authenticate_header_parse_outcomes "default" clusterUnauth ("BeErer token".toList)).2
        (by decide) (by decide)⟩⟩

/-- C8 counterexample: with the cluster down, the header `BeErer token` —
malformed by the spec's definition of a bearer credential — does not
produce the malformed-credential error, contradicting the claim that
every malformed credential deterministically yields it even when the
cluster is down. -/
theorem malformed_header_down_cluster_not_malformed_error :
    specValidBearerHeader ("BeErer token".toList) = false ∧
    (authenticate "default" downCluster (Option.some ("BeErer token".toList))).1 ≠
      Except.error ErrorKind.ModuleAuthenticationError := ⟨by decide, by decide⟩

/-- C8 (amended): for every credential header containing non-ASCII bytes,
the outcome of `authenticate` is identical under any two cluster
transports — in particular it is the malformed-credential error even when
the cluster is down. -/
theorem authenticate_nonascii_transport_independent
    (cfg : String) (c1 c2 : Cluster) (h : List Char)
    (hna : h.all isAsciiChar = false) :
    authenticate cfg c1 (Option.some h) = authenticate cfg c2 (Option.some h) ∧
    (authenticate cfg c1 (Option.some h)).1 =
      Except.error ErrorKind.ModuleAuthenticationError := by
  constructor <;> simp [authenticate, hna]

/-- C8 witness: the non-ASCII Greek-letter header gives the same outcome
under the down cluster and under a fully scripted cluster, and that
outcome is the malformed-credential error. -/
theorem authenticate_nonascii_transport_independent_witness :
    ("ΪΩΤ".toList).all isAsciiChar = false ∧
    authenticate "default" downCluster (Option.some ("ΪΩΤ".toList)) =
      authenticate "default" clusterAuthWithAnnot (Option.some ("ΪΩΤ".toList)) ∧
    (authenticate "default" downCluster (Option.some ("ΪΩΤ".toList))).1 =
      Except.error ErrorKind.ModuleAuthenticationError :=
  ⟨by decide,
    (authenticate_nonascii_transport_independent "default" downCluster clusterAuthWithAnnot
      ("ΪΩΤ".toList) (by decide)).1,
    (authenticate_nonascii_transport_independent "default" downCluster clusterAuthWithAnnot
      ("ΪΩΤ".toList) (by decide)).2⟩

/-- Shape of the call trace of `authenticate`: it is empty, or a single
token review, or a token review followed by one service-identity fetch at
the configured namespace and the name extracted from the asserted user. -/
theorem authenticate_trace_shape
    (cfg : String) (cluster : Cluster) (header : Option (List Char)) :
    (authenticate cfg cluster header).2 = [] ∨
    (∃ tc, (authenticate cfg cluster header).2 = [Call.tokenReview (List.asString tc)]) ∨
    (∃ tc st u ns2 name,
      cluster.tokenReview (List.asString tc) = Except.ok st ∧
      st.user = Option.some u ∧
      parseServiceAccountUser u = Option.some (ns2, name) ∧
      (authenticate cfg cluster header).2 =
        [Call.tokenReview (List.asString tc), Call.getServiceAccount cfg name]) := by
  cases header with
  | none => exact Or.inl rfl
  | some h =>
    cases hascii : h.all isAsciiChar with
    | false => exact Or.inl (by simp [authenticate, hascii])
    | true =>
      cases hb : bearerToken h with
      | none => exact Or.inl (by simp [authenticate, hascii, hb])
      | some tc =>
        cases hr : cluster.tokenReview (List.asString tc) with
        | error e =>
          exact Or.inr (Or.inl ⟨tc, by simp [authenticate, hascii, hb, hr]⟩)
        | ok st =>
          cases hauth : st.authenticated with
          | false =>
            exact Or.inr (Or.inl ⟨tc, by simp [authenticate, hascii, hb, hr, hauth]⟩)
          | true =>
            cases hu : st.user with
            | none =>
              exact Or.inr (Or.inl ⟨tc, by simp [authenticate, hascii, hb, hr, hauth, hu]⟩)
            | some u =>
              cases hp : parseServiceAccountUser u with
              | none =>
                exact Or.inr
                  (Or.inl ⟨tc, by simp [authenticate, hascii, hb, hr, hauth, hu, hp]⟩)
              | some p =>
                obtain ⟨ns2, name⟩ := p
                cases hf : cluster.getServiceAccount cfg name with
                | error e =>
                  exact Or.inr (Or.inr ⟨tc, st, u, ns2, name, hr, hu, hp,
                    by simp [authenticate, hascii, hb, hr, hauth, hu, hp, hf]⟩)
                | ok sa =>
                  cases hl : sa.annotations.lookup originalModuleIdKey with
                  | none =>
                    exact Or.inr (Or.inr ⟨tc, st, u, ns2, name, hr, hu, hp,
                      by simp [authenticate, hascii, hb, hr, hauth, hu, hp, hf, hl]⟩)
                  | some v =>
                    exact Or.inr (Or.inr ⟨tc, st, u, ns2, name, hr, hu, hp,
                      by simp [authenticate, hascii, hb, hr, hauth, hu, hp, hf, hl]⟩)

/-- C4: every service-identity fetch performed by `authenticate` goes to
the runtime's own configured namespace, paired with the name segment
extracted from the asserted user of a successful token review — never to
the namespace segment parsed out of the asserted user. -/
theorem authenticate_fetch_namespace_is_configured
    (cfg : String) (cluster : Cluster) (header : Option (List Char)) (a b : String)
    (hmem : Call.getServiceAccount a b ∈ (authenticate cfg cluster header).2) :
    a = cfg ∧
    ∃ tc st u ns2,
      cluster.tokenReview (List.asString tc) = Except.ok st ∧
      st.user = Option.some u ∧
      parseServiceAccountUser u = Option.some (ns2, b) := by
  rcases authenticate_trace_shape cfg cluster header with ht | ⟨tc, ht⟩ |
    ⟨tc, st, u, ns2, name, hr, hu, hp, ht⟩
  · rw [ht] at hmem
    simp at hmem
  · rw [ht] at hmem
    simp at hmem
  · rw [ht] at hmem
    simp only [List.mem_cons, List.mem_singleton] at hmem
    rcases hmem with hmem | hmem | hmem
    · cases hmem
    · obtain ⟨ha, hb⟩ := Call.getServiceAccount.inj hmem
      subst ha
      subst hb
      exact ⟨rfl, tc, st, u, ns2, hr, hu, hp⟩
    · cases hmem

/-- C4 witness: with the test's authenticated review (asserted user in
namespace `my-namespace`) and the configured namespace `default`, the
fetch observed in the trace is at `default`, paired with the extracted
name `edgeagent`. -/
theorem authenticate_fetch_namespace_is_configured_witness :
    Call.getServiceAccount "default" "edgeagent" ∈
      (authenticate "default" clusterAuthNoAnnot (Option.some ("Bearer token".toList))).2 ∧
    ("default" = "default" ∧ ∃ tc st u ns2,
      clusterAuthNoAnnot.tokenReview (List.asString tc) = Except.ok st ∧
      st.user = Option.some u ∧
      parseServiceAccountUser u = Option.some (ns2, "edgeagent")) :=
  ⟨by decide,
    authenticate_fetch_namespace_is_configured "default" clusterAuthNoAnnot
      (Option.some ("Bearer token".toList)) "default" "edgeagent" (by decide)⟩

end EdgeletKube
